import Mathlib

/-! Verification of the request-orchestration core of the polygot-code-translator
VS Code extension (src/extension.ts): the language-pair registry, the cached
health monitor, the connectivity probe, the response normalizer and the retry
logic of `translateCode`.  JS numbers occurring here are nonnegative counters
and millisecond timestamps, modelled as `Nat` (the one subtraction that occurs,
`now - lastApiCheck`, selects the same branch under `Nat` truncation as under JS
signed subtraction, since both classify `now < lastApiCheck` as within the
caching window).  Network replies, the wall clock and the user's dialog answers
are oracles supplied in an `Env` record.  `translateCode`'s self-recursion is
realized over a structural bound that dominates its recursion measure: every
self-call of the source either decrements the retry budget (`retryCount - 1`)
or consumes one pending user dialog answer (the Check Again branch). -/

namespace Polygot

/-- JS truthiness fallback `s || d` for strings: the empty string is falsy. -/
def jsOrString (s d : String) : String :=
  if s = "" then d else s

/-- JS truthiness fallback `o || d` where `o` is a possibly-absent string
(`undefined` and `""` both fall through to the default). -/
def jsOrOpt (o : Option String) (d : String) : String :=
  match o with
  | none => d
  | some s => jsOrString s d

/-- Value of a nonempty list of decimal digit characters. -/
def digitsToNat (ds : List Char) : Nat :=
  ds.foldl (fun acc c => acc * 10 + (c.toNat - 48)) 0

/-- Models `parseInt(headers['retry-after'] || '5', 10) * 1000` from the 429
handlers (source lines 1302 and 1389) for the header shapes that occur: a run
of leading decimal digits is parsed; a header with no leading digit parses to
`NaN`, and `setTimeout` coerces a `NaN` delay to `0`, modelled as `0` ms. -/
def jsParseRetryAfterMs (h : Option String) : Nat :=
  let s := jsOrOpt h "5"
  let ds := s.data.takeWhile Char.isDigit
  if ds = [] then 0 else digitsToNat ds * 1000

/-- Drops characters up to and including the first newline; `none` when the
list contains no newline (the lazy regex `/^` ++ "```" ++ `[\s\S]*?\n/` needs a
newline to match at all). -/
def dropThroughNewline : List Char → Option (List Char)
  | [] => none
  | c :: cs => if c = '\n' then some cs else dropThroughNewline cs

/-- Models `.replace(/^` ++ "```" ++ `[\s\S]*?\n/, '')` (source line 1263): when the
payload starts with the fence delimiter and a newline follows, remove the
delimiter and everything up to and including the first newline; otherwise the
payload is unchanged. -/
def stripLeadingFence (cs : List Char) : List Char :=
  if cs.take 3 = "```".data then
    match dropThroughNewline (cs.drop 3) with
    | some rest => rest
    | none => cs
  else cs

/-- Models `.replace(/\n` ++ "```" ++ `$/, '')` (source line 1264): when the payload
ends with a newline followed by the fence delimiter, remove those final four
characters; otherwise the payload is unchanged. -/
def stripTrailingFence (cs : List Char) : List Char :=
  if cs.reverse.take 4 = ("\n```".data).reverse then
    cs.take (cs.length - 4)
  else cs

/-- Models `String.prototype.trim` (source line 1265) on the whitespace that
occurs in code payloads: space, tab, carriage return and newline are removed
from both ends. -/
def jsTrim (cs : List Char) : List Char :=
  ((cs.dropWhile Char.isWhitespace).reverse.dropWhile Char.isWhitespace).reverse

/-- The response normalizer (source lines 1262-1265): strip one leading fence,
one trailing fence, then trim surrounding whitespace. -/
def normalizeTranslated (s : String) : String :=
  String.mk (jsTrim (stripTrailingFence (stripLeadingFence s.data)))

/-- The fixed registry table `SUPPORTED_LANGUAGE_PAIRS` (source lines 925-1019),
transcribed pair by pair as `(from, to)`. -/
def SUPPORTED_LANGUAGE_PAIRS : List (String × String) := [
  ("python", "javascript"), ("javascript", "python"),
  ("python", "java"), ("java", "python"),
  ("python", "typescript"), ("typescript", "python"),
  ("python", "c++"), ("c++", "python"),
  ("python", "c#"), ("c#", "python"),
  ("python", "ruby"), ("ruby", "python"),
  ("python", "go"), ("go", "python"),
  ("python", "php"), ("php", "python"),
  ("python", "perl"), ("perl", "python"),
  ("python", "fortran"), ("fortran", "python"),
  ("python", "pascal"), ("pascal", "python"),
  ("javascript", "java"), ("java", "javascript"),
  ("javascript", "typescript"), ("typescript", "javascript"),
  ("javascript", "c++"), ("c++", "javascript"),
  ("javascript", "c#"), ("c#", "javascript"),
  ("javascript", "dart"), ("dart", "javascript"),
  ("javascript", "html"), ("html", "javascript"),
  ("javascript", "php"), ("php", "javascript"),
  ("php", "typescript"), ("typescript", "php"),
  ("java", "c++"), ("c++", "java"),
  ("java", "c#"), ("c#", "java"),
  ("java", "go"), ("go", "java"),
  ("java", "kotlin"), ("kotlin", "java"),
  ("java", "scala"), ("scala", "java"),
  ("java", "cobol"), ("cobol", "java"),
  ("c++", "c"), ("c", "c++"),
  ("c++", "rust"), ("rust", "c++"),
  ("c++", "c#"), ("c#", "c++"),
  ("css", "scss"), ("scss", "css"),
  ("typescript", "dart"), ("dart", "typescript"),
  ("rust", "go"), ("go", "rust"),
  ("flask", "express"), ("express", "flask"),
  ("django", "spring"), ("spring", "django"),
  ("vue", "react"), ("react", "vue"),
  ("jsx", "tsx"), ("tsx", "jsx"),
  ("vue", "svelte"), ("svelte", "vue"),
  ("angular", "react"), ("react", "angular"),
  ("swift", "kotlin"), ("kotlin", "swift")]

/-- Keep-first deduplication, the order `Array.from(new Set(list))` produces in
JS (source lines 1105-1111); `seen` accumulates the elements already emitted. -/
def uniqueFirstAux (seen : List String) : List String → List String
  | [] => []
  | x :: xs =>
    if x ∈ seen then uniqueFirstAux seen xs
    else x :: uniqueFirstAux (x :: seen) xs

/-- `getSupportedTargetLanguages` (source lines 1104-1112): the distinct `to`
components of the registry pairs whose `from` component is the source tag. -/
def getSupportedTargetLanguages (sourceLang : String) : List String :=
  uniqueFirstAux []
    ((SUPPORTED_LANGUAGE_PAIRS.filter (fun p => p.1 == sourceLang)).map Prod.snd)

/-- `isLanguagePairSupported` (source lines 1115-1119): exact-match membership
of the ordered pair in the registry table. -/
def isLanguagePairSupported (fromLang toLang : String) : Bool :=
  SUPPORTED_LANGUAGE_PAIRS.any (fun p => p.1 == fromLang && p.2 == toLang)

/-- `API_HEALTH_CHECK_INTERVAL = 5 * 60 * 1000` ms (source line 821). -/
def API_HEALTH_CHECK_INTERVAL : Nat := 5 * 60 * 1000

/-- The module-level health state: `isApiHealthy` (source line 819, initially
`true`) and `lastApiCheck` (source line 820, initially `0`), in ms. -/
structure HealthGlobals where
  isApiHealthy : Bool
  lastApiCheck : Nat
  deriving DecidableEq

/-- Outcome of one HTTP request as axios reports it under
`validateStatus: () => true`: every received status resolves, and transport
failures (timeout, DNS, connection reset) throw an error carrying an optional
`code` and a `message`. -/
inductive HttpOutcome where
  | resolved (status : Nat)
  | failed (code : Option String) (message : String)
  deriving DecidableEq

/-- What `checkApiHealth` returns to its caller (source lines 860, 888-891,
901-904): the health flag and, on an actual check, a message. -/
structure HealthReport where
  isHealthy : Bool
  message : Option String
  deriving DecidableEq

/-- One `checkApiHealth` call: the report returned, the updated module state,
and whether a network GET was issued. -/
structure HealthCheckStep where
  report : HealthReport
  state : HealthGlobals
  networkCall : Bool
  deriving DecidableEq

/-- `checkApiHealth` (source lines 855-906).  Within the caching window the
cached flag is returned without any network call.  Otherwise `lastApiCheck` is
stamped with `now` (source line 867, before the GET, so the stamp survives a
failed request), the health GET is issued, and exactly status 200 counts as
healthy; any transport error marks the service unhealthy. -/
def checkApiHealth (st : HealthGlobals) (now : Nat) (net : HttpOutcome) :
    HealthCheckStep :=
  if now - st.lastApiCheck < API_HEALTH_CHECK_INTERVAL then
    ⟨⟨st.isApiHealthy, none⟩, st, false⟩
  else
    match net with
    | .resolved status =>
      let healthy := status == 200
      ⟨⟨healthy, some (if healthy then "API is healthy"
                       else "API returned status " ++ toString status)⟩,
       ⟨healthy, now⟩, true⟩
    | .failed code msg =>
      ⟨⟨false, some ("Connection failed: " ++ jsOrOpt code msg)⟩,
       ⟨false, now⟩, true⟩

/-- Result record of `testConnection` (source lines 836-851). -/
structure ProbeResult where
  success : Bool
  status : Option Nat
  message : String
  deriving DecidableEq

/-- `testConnection` (source lines 823-853): a HEAD request with
`validateStatus: () => true`; any received status yields a positive record iff
the status is below 400, and every transport failure is caught and returned as
a negative record with message `Connection failed: <code or message>` — the
function never throws.  `elapsedMs` is the measured response time that is
interpolated into the success message. -/
def testConnection (url : String) (net : HttpOutcome) (elapsedMs : Nat) :
    ProbeResult :=
  match net with
  | .resolved status =>
    ⟨decide (status < 400), some status,
     "Connection successful (" ++ toString status ++ " in " ++
       toString elapsedMs ++ "ms)"⟩
  | .failed code msg =>
    ⟨false, none, "Connection failed: " ++ jsOrOpt code msg⟩

/-- `MAX_CODE_LENGTH = 10000` characters (source line 1196). -/
def MAX_CODE_LENGTH : Nat := 10000

/-- `maxRetries = 1` (source line 1147), the default retry budget. -/
def maxRetries : Nat := 1

/-- A resolved translate response.  The POST uses
`validateStatus: (status) => status < 500` (source line 1249), so every status
below 500 resolves into this shape; in particular HTTP 429 arrives here and
never as a thrown error. -/
structure Resp where
  status : Nat
  translated_code : Option String
  message : Option String
  statusText : String
  deriving DecidableEq

/-- The `error.response` attached to a thrown axios error (a received status
the `validateStatus` predicate rejected, i.e. 500 and above). -/
structure ErrResp where
  status : Nat
  message : Option String
  retryAfter : Option String
  deriving DecidableEq

/-- A thrown axios error: optional transport `code` (`ECONNABORTED`,
`ENOTFOUND`, ...), optional attached response, whether a request object exists
(it does whenever the request went on the wire), and the error message. -/
structure AxiosErrData where
  code : Option String
  response : Option ErrResp
  hasRequest : Bool
  message : String
  deriving DecidableEq

/-- Outcome of one translate POST, as the `await axios.post` of source line
1239 delivers it: resolved response (status below 500) or thrown error. -/
inductive PostOutcome where
  | resolved (r : Resp)
  | thrown (e : AxiosErrData)
  deriving DecidableEq

/-- An exception value inside `translateCode`: either a plain `Error` thrown by
the function's own code, or an axios error thrown by the POST. -/
inductive Thrown where
  | plain (message : String)
  | axios (e : AxiosErrData)
  deriving DecidableEq

/-- The response handling of the inner `try` (source lines 1257-1280): a 2xx
status with a truthy `translated_code` is normalized, an empty normalization
throws `Received empty translation from the server`, a falsy or missing
`translated_code` throws the invalid-format error, and any other resolved
status throws `Translation failed: <message or statusText or fallback>`. -/
def handleTranslateResponse (r : Resp) : Except Thrown String :=
  if 200 ≤ r.status ∧ r.status < 300 then
    match r.translated_code with
    | none =>
      .error (.plain
        "Invalid response format from translation service: Missing translated_code")
    | some raw =>
      if raw = "" then
        .error (.plain
          "Invalid response format from translation service: Missing translated_code")
      else
        let codeWithoutMarkdown := normalizeTranslated raw
        if codeWithoutMarkdown = "" then
          .error (.plain "Received empty translation from the server")
        else .ok codeWithoutMarkdown
  else
    .error (.plain ("Translation failed: " ++
      jsOrOpt r.message
        (jsOrString r.statusText
          ("Request failed with status " ++ toString r.status))))

/-- What the inner `catch` decides: schedule a retry after a delay, or throw a
plain error (which the outer `catch` then wraps). -/
inductive InnerDecision where
  | retryAfterMs (delay : Nat)
  | raise (message : String)
  deriving DecidableEq

/-- The inner `catch` (source lines 1281-1323).  Timeout/abort
(`ECONNABORTED`) or an attached 504 response retries after a fixed 1000 ms
(source line 1289) while budget remains, else fails; an attached 429 response
would retry after the retry-after delay (unreachable, since 429 resolves);
other attached responses fail with the status message; a request without a
response fails; a plain error is re-thrown with a `Translation failed: `
prefix (source lines 1320-1322). -/
def innerCatch (t : Thrown) (retryCount : Nat) : InnerDecision :=
  match t with
  | .axios e =>
    if e.code == some "ECONNABORTED" || e.response.map ErrResp.status == some 504 then
      if 0 < retryCount then .retryAfterMs 1000
      else .raise "Translation service is currently unavailable. The request timed out."
    else
      match e.response with
      | some resp =>
        if resp.status == 429 then
          if 0 < retryCount then .retryAfterMs (jsParseRetryAfterMs resp.retryAfter)
          else .raise "Translation service rate limit exceeded. Please try again later."
        else
          .raise ("Translation failed (" ++ toString resp.status ++ "): " ++
            jsOrOpt resp.message (jsOrString e.message "Unknown error occurred"))
      | none =>
        if e.hasRequest then
          .raise "No response received from the translation service. Please check your connection."
        else .raise ("Failed to send translation request: " ++ e.message)
  | .plain m => .raise ("Translation failed: " ++ m)

/-- The exponential backoff formula of the outer `catch` (source lines
1337-1338): `min(1000 * 2^(maxRetries - retryCount), 30000)` plus a jitter
draw.  The outer `catch` only runs for errors thrown inside the outer `try`,
and every axios error thrown by the POST is intercepted and converted to a
plain error by the inner `catch` (source lines 1281-1323), so this schedule is
unreachable: the timeout/504 retry that actually executes waits the fixed
1000 ms of source line 1289. -/
def outerBackoffDelay (retryCount jitter : Nat) : Nat :=
  min (1000 * 2 ^ (maxRetries - retryCount)) 30000 + jitter

/-- The user's answer to the degraded-health dialog (source lines 1175-1192):
`Try Anyway`, `Check Again`, `Open Network Settings`, `Cancel`, or dismissing
the dialog (`undefined`). -/
inductive UserChoice where
  | tryAnyway
  | checkAgain
  | openNetworkSettings
  | cancel
  | dismissed
  deriving DecidableEq

/-- Observable network and scheduling events of one orchestration run: the
health GET, the diagnostic HEAD probe, the translate POST, and a
`setTimeout` suspension of the given ms. -/
inductive Ev where
  | healthGet
  | probe
  | post
  | wait (ms : Nat)
  deriving DecidableEq

/-- State threaded through an orchestration run: the module-level health
globals, how many health GETs / probes / POSTs have been issued (indices into
the oracles), the frame number (index into the clock oracle), and the user's
pending dialog answers. -/
structure OrchState where
  health : HealthGlobals
  getCount : Nat
  probeCount : Nat
  postCount : Nat
  frame : Nat
  choices : List UserChoice
  deriving DecidableEq

/-- The oracles of a run: the wall clock at each frame's health check, the
outcome of the k-th health GET, the outcome of the k-th translate POST, and
the k-th `Math.floor(Math.random() * 1000)` jitter draw (consulted only by the
unreachable outer-catch backoff, kept for stating the schedule). -/
structure Env where
  timeAtFrame : Nat → Nat
  healthGets : Nat → HttpOutcome
  posts : Nat → PostOutcome
  rand : Nat → Nat

deriving instance DecidableEq for Except

/-- Result of one `translateCode` frame: terminate with a result and this
frame's events, or recurse with a new budget and state (the source's
self-calls at lines 1185, 1290 and 1305). -/
inductive StepResult where
  | done (result : Except String String) (trace : List Ev)
  | again (retryCount : Nat) (st : OrchState) (trace : List Ev)
  deriving DecidableEq

/-- Prepend earlier events of the frame to a step result's trace. -/
def StepResult.withTrace (pre : List Ev) : StepResult → StepResult
  | .done r tr => .done r (pre ++ tr)
  | .again rc st tr => .again rc st (pre ++ tr)

/-- The part of a `translateCode` frame after the health gate (source lines
1195-1323): the size ceiling check, the language-pair admission check, the
POST, the inner `try` response handling and the inner `catch`.  A message the
inner `catch` raises is a plain error that the frame's outer `catch` (source
lines 1430-1432) wraps with one more `Translation failed: ` prefix; the outer
catch's axios branches never run because only plain errors reach it. -/
def translatePostPhase (env : Env) (code srcLang tgtLang : String)
    (preserveComments : Bool) (retryCount : Nat) (st : OrchState) : StepResult :=
  if MAX_CODE_LENGTH < code.length then
    .done (.error ("Translation failed: " ++ "Code too large for translation")) []
  else if isLanguagePairSupported srcLang tgtLang then
    let outcome := env.posts st.postCount
    let st1 : OrchState := { st with postCount := st.postCount + 1 }
    let attempt : Except Thrown String :=
      match outcome with
      | .resolved r => handleTranslateResponse r
      | .thrown e => .error (.axios e)
    match attempt with
    | .ok text => .done (.ok text) [.post]
    | .error t =>
      match innerCatch t retryCount with
      | .retryAfterMs d =>
        .again (retryCount - 1) { st1 with frame := st1.frame + 1 } [.post, .wait d]
      | .raise m => .done (.error ("Translation failed: " ++ m)) [.post]
  else
    .done (.error ("Translation failed: " ++
      ("Translation from " ++ srcLang ++ " to " ++ tgtLang ++
        " is not supported."))) []

/-- One frame of `translateCode` (source lines 1121-1434).  The health check
runs first (line 1163); when it reports unhealthy, the diagnostic probe is
issued and the dialog consumes the next pending user answer — `Check Again`
resets `lastApiCheck` to 0 and recurses with the budget unchanged (line 1185),
`Open Network Settings` and `Cancel`/dismissal abort with a plain error that
the outer catch wraps, and `Try Anyway` continues.  Only then follow the size
ceiling and admission checks and the POST. -/
def translateStep (env : Env) (code srcLang tgtLang : String)
    (preserveComments : Bool) (retryCount : Nat) (st : OrchState) : StepResult :=
  let hc := checkApiHealth st.health (env.timeAtFrame st.frame)
    (env.healthGets st.getCount)
  let st1 : OrchState := { st with
    health := hc.state
    getCount := st.getCount + (if hc.networkCall then 1 else 0) }
  let tr0 : List Ev := if hc.networkCall then [.healthGet] else []
  if hc.report.isHealthy then
    (translatePostPhase env code srcLang tgtLang preserveComments retryCount st1).withTrace tr0
  else
    let st2 : OrchState := { st1 with probeCount := st1.probeCount + 1 }
    let tr1 : List Ev := tr0 ++ [.probe]
    match st2.choices with
    | [] =>
      .done (.error ("Translation failed: " ++ "Translation aborted by user")) tr1
    | c :: rest =>
      let st3 : OrchState := { st2 with choices := rest }
      match c with
      | .checkAgain =>
        .again retryCount
          { st3 with health := { st3.health with lastApiCheck := 0 },
                     frame := st3.frame + 1 } tr1
      | .openNetworkSettings =>
        .done (.error ("Translation failed: " ++
          "Please check your network settings and try again.")) tr1
      | .tryAnyway =>
        (translatePostPhase env code srcLang tgtLang preserveComments retryCount st3).withTrace tr1
      | .cancel =>
        .done (.error ("Translation failed: " ++ "Translation aborted by user")) tr1
      | .dismissed =>
        .done (.error ("Translation failed: " ++ "Translation aborted by user")) tr1

/-- The outcome of a whole orchestration run: the settled promise, the ordered
network/suspension events, and the number of `translateCode` invocations. -/
structure RunResult where
  result : Except String String
  trace : List Ev
  frames : Nat
  deriving DecidableEq

/-- Iterates `translateStep` along the source's self-calls.  The structural
bound only exists to realize the recursion in Lean; `translateCode` below
instantiates it with one more than the recursion measure (retry budget plus
pending user answers), which `translateStep_again_measure` proves strictly
decreases at every self-call, so the zero case is never reached from
`translateCode`. -/
def translateRun (env : Env) (code srcLang tgtLang : String)
    (preserveComments : Bool) : Nat → Nat → OrchState → RunResult
  | 0, _, _ => ⟨.error "out of fuel", [], 0⟩
  | bound + 1, retryCount, st =>
    match translateStep env code srcLang tgtLang preserveComments retryCount st with
    | .done r tr => ⟨r, tr, 1⟩
    | .again rc st' tr =>
      let rest := translateRun env code srcLang tgtLang preserveComments bound rc st'
      ⟨rest.result, tr ++ rest.trace, rest.frames + 1⟩

/-- The recursion measure of `translateCode`: retry budget plus pending user
dialog answers. -/
def orchMeasure (retryCount : Nat) (st : OrchState) : Nat :=
  retryCount + st.choices.length

/-- `translateCode` (source lines 1121-1434), as a whole orchestration run
from the given state; the source's default arguments are `preserveComments =
true` and `retryCount = 1`. -/
def translateCode (env : Env) (code srcLang tgtLang : String)
    (preserveComments : Bool) (retryCount : Nat) (st : OrchState) : RunResult :=
  translateRun env code srcLang tgtLang preserveComments
    (orchMeasure retryCount st + 1) retryCount st

/-- Initial orchestration state: the module globals start healthy with
`lastApiCheck = 0`, no requests issued yet, with the given pending dialog
answers. -/
def initState (choices : List UserChoice) : OrchState :=
  ⟨⟨true, 0⟩, 0, 0, 0, 0, choices⟩

/-- Environment of a reachable service: the clock is far past the caching
window, the health GET answers 200, and the POST answers 200 with a one-line
payload. -/
def envHealthy : Env :=
  ⟨fun _ => 1000000, fun _ => .resolved 200,
   fun _ => .resolved ⟨200, some "x", none, ""⟩, fun _ => 0⟩

/-- Environment of a degraded service: every health GET answers 500. -/
def envUnhealthy : Env :=
  ⟨fun _ => 1000000, fun _ => .resolved 500,
   fun _ => .resolved ⟨200, some "x", none, ""⟩, fun _ => 0⟩

/-- Environment whose translate endpoint always answers HTTP 429 (which
resolves under `validateStatus: (status) => status < 500`), with empty
`statusText` and no body message. -/
def envRateLimited : Env :=
  ⟨fun _ => 1000000, fun _ => .resolved 200,
   fun _ => .resolved ⟨429, none, none, ""⟩, fun _ => 0⟩

/-- Environment whose translate POST always times out (`ECONNABORTED`); the
second frame's clock is 1000 ms after the first, within the caching window;
the jitter oracle always draws 500. -/
def envTimeout : Env :=
  ⟨fun n => 1000000 + n * 1000, fun _ => .resolved 200,
   fun _ => .thrown ⟨some "ECONNABORTED", none, true, "timeout of 10000ms exceeded"⟩,
   fun _ => 500⟩

/-- Environment whose translate endpoint answers 200 with
`translated_code = ""` (falsy in JS). -/
def envEmptyField : Env :=
  ⟨fun _ => 1000000, fun _ => .resolved 200,
   fun _ => .resolved ⟨200, some "", none, ""⟩, fun _ => 0⟩

/-- Environment whose translate endpoint answers 200 with a fenced python
payload. -/
def envFenced : Env :=
  ⟨fun _ => 1000000, fun _ => .resolved 200,
   fun _ => .resolved ⟨200, some "```python\nprint(1)\n```", none, ""⟩, fun _ => 0⟩

/-- A payload of 10001 characters, one over the size ceiling. -/
def bigCode : String := String.mk (List.replicate 10001 'a')

/-! General-purpose lemmas about the embedded definitions, shared by the claim
theorems below. -/

theorem data_append (a b : String) : (a ++ b).data = a.data ++ b.data := by
  cases a
  cases b
  rfl

theorem mk_length (l : List Char) : (String.mk l).length = l.length := rfl

theorem bigCode_length : bigCode.length = 10001 := by
  rw [bigCode, mk_length, List.length_replicate]

theorem dropThroughNewline_append (l r : List Char) (h : '\n' ∉ l) :
    dropThroughNewline (l ++ '\n' :: r) = some r := by
  induction l with
  | nil => simp [dropThroughNewline]
  | cons c cs ih =>
    simp only [List.cons_append, dropThroughNewline]
    have hc : ¬ (c = '\n') := by
      intro hc
      exact h (hc ▸ List.mem_cons_self c cs)
    rw [if_neg hc]
    exact ih (fun hm => h (List.mem_cons_of_mem _ hm))

theorem stripLeadingFence_fence (info rest : List Char) (h : '\n' ∉ info) :
    stripLeadingFence ("```".data ++ (info ++ '\n' :: rest)) = rest := by
  have h3 : ("```".data).length = 3 := rfl
  unfold stripLeadingFence
  rw [List.take_left' h3, if_pos rfl, List.drop_left' h3,
    dropThroughNewline_append info rest h]

theorem stripTrailingFence_fence (b : List Char) :
    stripTrailingFence (b ++ "\n```".data) = b := by
  have h4 : (("\n```".data).reverse).length = 4 := rfl
  have hlen : (b ++ "\n```".data).length = b.length + 4 := by simp
  unfold stripTrailingFence
  rw [List.reverse_append, List.take_left' h4, if_pos rfl, hlen,
    Nat.add_sub_cancel, List.take_left]

theorem mem_uniqueFirstAux (x : String) :
    ∀ (l seen : List String), x ∈ uniqueFirstAux seen l ↔ (x ∈ l ∧ x ∉ seen) := by
  intro l
  induction l with
  | nil => intro seen; simp [uniqueFirstAux]
  | cons y ys ih =>
    intro seen
    simp only [uniqueFirstAux]
    by_cases hy : y ∈ seen
    · rw [if_pos hy, ih]
      simp only [List.mem_cons]
      constructor
      · rintro ⟨hx, hs⟩
        exact ⟨Or.inr hx, hs⟩
      · rintro ⟨hx | hx, hs⟩
        · exact absurd (hx ▸ hy) hs
        · exact ⟨hx, hs⟩
    · rw [if_neg hy]
      simp only [List.mem_cons, ih, List.mem_cons]
      constructor
      · rintro (rfl | ⟨hx, hs⟩)
        · exact ⟨Or.inl rfl, hy⟩
        · exact ⟨Or.inr hx, fun hc => hs (Or.inr hc)⟩
      · rintro ⟨rfl | hx, hs⟩
        · exact Or.inl rfl
        · by_cases hxy : x = y
          · exact Or.inl hxy
          · exact Or.inr ⟨hx, fun hc => hc.elim hxy hs⟩

theorem isLanguagePairSupported_iff (a b : String) :
    isLanguagePairSupported a b = true ↔ (a, b) ∈ SUPPORTED_LANGUAGE_PAIRS := by
  unfold isLanguagePairSupported
  rw [List.any_eq_true]
  constructor
  · rintro ⟨⟨x, y⟩, hp, hxy⟩
    simp only [Bool.and_eq_true, beq_iff_eq] at hxy
    obtain ⟨rfl, rfl⟩ := hxy
    exact hp
  · intro h
    exact ⟨(a, b), h, by simp⟩

theorem pairs_reverse_mem :
    ∀ p ∈ SUPPORTED_LANGUAGE_PAIRS, (p.2, p.1) ∈ SUPPORTED_LANGUAGE_PAIRS := by
  decide

theorem mem_getSupportedTargetLanguages (a b : String) :
    b ∈ getSupportedTargetLanguages a ↔ (a, b) ∈ SUPPORTED_LANGUAGE_PAIRS := by
  unfold getSupportedTargetLanguages
  rw [mem_uniqueFirstAux]
  simp only [List.not_mem_nil, not_false_iff, and_true, List.mem_map,
    List.mem_filter]
  constructor
  · rintro ⟨⟨x, y⟩, ⟨hp, hx⟩, rfl⟩
    simp only [beq_iff_eq] at hx
    subst hx
    exact hp
  · intro h
    exact ⟨(a, b), ⟨h, by simp⟩, rfl⟩

theorem innerCatch_retry_pos (t : Thrown) (rc d : Nat)
    (h : innerCatch t rc = .retryAfterMs d) : 0 < rc := by
  cases rc with
  | succ n => exact Nat.succ_pos n
  | zero =>
    exfalso
    cases t with
    | plain m => simp [innerCatch] at h
    | axios e =>
      simp only [innerCatch] at h
      split at h
      · simp at h
      · split at h
        · split at h <;> simp_all
        · split at h <;> simp_all

theorem withTrace_again (pre : List Ev) (s : StepResult) (rc' : Nat)
    (st' : OrchState) (tr : List Ev) (h : s.withTrace pre = .again rc' st' tr) :
    ∃ tr0, s = .again rc' st' tr0 := by
  cases s with
  | done r tr2 => simp [StepResult.withTrace] at h
  | again rc2 st2 tr2 =>
    simp only [StepResult.withTrace, StepResult.again.injEq] at h
    exact ⟨tr2, by rw [h.1, h.2.1]⟩

theorem withTrace_done (pre : List Ev) (s : StepResult) (r : Except String String)
    (tr : List Ev) (h : s.withTrace pre = .done r tr) :
    ∃ tr0, s = .done r tr0 := by
  cases s with
  | done r2 tr2 =>
    simp only [StepResult.withTrace, StepResult.done.injEq] at h
    exact ⟨tr2, by rw [h.1]⟩
  | again rc2 st2 tr2 => simp [StepResult.withTrace] at h

theorem translatePostPhase_again (env : Env) (code srcLang tgtLang : String)
    (pc : Bool) (rc : Nat) (st : OrchState) (rc' : Nat) (st' : OrchState)
    (tr : List Ev)
    (h : translatePostPhase env code srcLang tgtLang pc rc st = .again rc' st' tr) :
    rc' = rc - 1 ∧ 0 < rc ∧ st'.choices = st.choices := by
  simp only [translatePostPhase] at h
  split at h
  · simp at h
  · split at h
    · split at h
      · simp at h
      · split at h
        · next hdec =>
          simp only [StepResult.again.injEq] at h
          obtain ⟨h1, h2, h3⟩ := h
          refine ⟨h1.symm, innerCatch_retry_pos _ _ _ hdec, ?_⟩
          rw [← h2]
        · simp at h
    · simp at h

theorem translateStep_again (env : Env) (code srcLang tgtLang : String)
    (pc : Bool) (rc : Nat) (st : OrchState) (rc' : Nat) (st' : OrchState)
    (tr : List Ev)
    (h : translateStep env code srcLang tgtLang pc rc st = .again rc' st' tr) :
    rc' + st'.choices.length < rc + st.choices.length := by
  simp only [translateStep] at h
  split at h
  · obtain ⟨tr0, hs⟩ := withTrace_again _ _ _ _ _ h
    obtain ⟨h1, h2, h3⟩ := translatePostPhase_again _ _ _ _ _ _ _ _ _ _ hs
    have h3l : st'.choices.length = st.choices.length := by
      rw [(h3 : st'.choices = st.choices)]
    omega
  · split at h
    · simp at h
    · next c rest hchoices =>
      have hch : st.choices = c :: rest := hchoices
      split at h
      · simp only [StepResult.again.injEq] at h
        obtain ⟨h1, h2, h3⟩ := h
        have hc : st'.choices = rest := by rw [← h2]
        rw [← h1, hc, hch]
        simp
      · simp at h
      · obtain ⟨tr0, hs⟩ := withTrace_again _ _ _ _ _ h
        obtain ⟨h1, h2, h3⟩ := translatePostPhase_again _ _ _ _ _ _ _ _ _ _ hs
        have h3l : st'.choices.length = rest.length := by
          rw [(h3 : st'.choices = rest)]
        rw [hch]
        simp only [List.length_cons]
        omega
      · simp at h
      · simp at h

theorem translateRun_succ_done (env : Env) (code srcLang tgtLang : String)
    (pc : Bool) (n rc : Nat) (st : OrchState) (r : Except String String)
    (tr : List Ev)
    (h : translateStep env code srcLang tgtLang pc rc st = .done r tr) :
    translateRun env code srcLang tgtLang pc (n + 1) rc st = ⟨r, tr, 1⟩ := by
  simp only [translateRun, h]

theorem translateRun_succ_again (env : Env) (code srcLang tgtLang : String)
    (pc : Bool) (n rc : Nat) (st : OrchState) (rc' : Nat) (st' : OrchState)
    (tr : List Ev)
    (h : translateStep env code srcLang tgtLang pc rc st = .again rc' st' tr) :
    translateRun env code srcLang tgtLang pc (n + 1) rc st =
      ⟨(translateRun env code srcLang tgtLang pc n rc' st').result,
       tr ++ (translateRun env code srcLang tgtLang pc n rc' st').trace,
       (translateRun env code srcLang tgtLang pc n rc' st').frames + 1⟩ := by
  simp only [translateRun, h]

theorem translateRun_frames (env : Env) (code srcLang tgtLang : String)
    (pc : Bool) :
    ∀ (bound rc : Nat) (st : OrchState), orchMeasure rc st < bound →
      (translateRun env code srcLang tgtLang pc bound rc st).frames ≤
        orchMeasure rc st + 1 := by
  intro bound
  induction bound with
  | zero => intro rc st h; exact absurd h (Nat.not_lt_zero _)
  | succ n ih =>
    intro rc st h
    cases hstep : translateStep env code srcLang tgtLang pc rc st with
    | done r tr =>
      rw [translateRun_succ_done _ _ _ _ _ _ _ _ _ _ hstep]
      show 1 ≤ orchMeasure rc st + 1
      omega
    | again rc2 st2 tr =>
      rw [translateRun_succ_again _ _ _ _ _ _ _ _ _ _ _ hstep]
      have hm := translateStep_again _ _ _ _ _ _ _ _ _ _ hstep
      have hlt : orchMeasure rc2 st2 < n := by
        simp only [orchMeasure] at h ⊢
        omega
      have hih := ih rc2 st2 hlt
      show (translateRun env code srcLang tgtLang pc n rc2 st2).frames + 1 ≤
        orchMeasure rc st + 1
      simp only [orchMeasure] at hih ⊢
      omega

theorem handleTranslateResponse_ok (r : Resp) (s : String)
    (h : handleTranslateResponse r = .ok s) : s ≠ "" := by
  simp only [handleTranslateResponse] at h
  split at h
  · split at h
    · simp at h
    · split at h
      · simp at h
      · split at h
        · simp at h
        · next hne =>
          simp only [Except.ok.injEq] at h
          rw [← h]
          exact hne
  · simp at h

theorem translatePostPhase_ok (env : Env) (code srcLang tgtLang : String)
    (pc : Bool) (rc : Nat) (st : OrchState) (s : String) (tr : List Ev)
    (h : translatePostPhase env code srcLang tgtLang pc rc st = .done (.ok s) tr) :
    s ≠ "" := by
  simp only [translatePostPhase] at h
  split at h
  · simp at h
  · split at h
    · split at h
      · next hattempt =>
        simp only [StepResult.done.injEq, Except.ok.injEq] at h
        obtain ⟨rfl, -⟩ := h
        split at hattempt
        · exact handleTranslateResponse_ok _ _ hattempt
        · simp at hattempt
      · split at h <;> simp_all
    · simp at h

theorem translateStep_ok (env : Env) (code srcLang tgtLang : String)
    (pc : Bool) (rc : Nat) (st : OrchState) (s : String) (tr : List Ev)
    (h : translateStep env code srcLang tgtLang pc rc st = .done (.ok s) tr) :
    s ≠ "" := by
  simp only [translateStep] at h
  split at h
  · obtain ⟨tr0, hs⟩ := withTrace_done _ _ _ _ h
    exact translatePostPhase_ok _ _ _ _ _ _ _ _ _ hs
  · split at h
    · simp at h
    · split at h
      · simp at h
      · simp at h
      · obtain ⟨tr0, hs⟩ := withTrace_done _ _ _ _ h
        exact translatePostPhase_ok _ _ _ _ _ _ _ _ _ hs
      · simp at h
      · simp at h

theorem translateRun_ok (env : Env) (code srcLang tgtLang : String) (pc : Bool) :
    ∀ (bound rc : Nat) (st : OrchState) (s : String),
      (translateRun env code srcLang tgtLang pc bound rc st).result = .ok s →
      s ≠ "" := by
  intro bound
  induction bound with
  | zero => intro rc st s h; simp [translateRun] at h
  | succ n ih =>
    intro rc st s h
    cases hstep : translateStep env code srcLang tgtLang pc rc st with
    | done r tr =>
      rw [translateRun_succ_done _ _ _ _ _ _ _ _ _ _ hstep] at h
      have hr : r = .ok s := h
      rw [hr] at hstep
      exact translateStep_ok _ _ _ _ _ _ _ _ _ hstep
    | again rc2 st2 tr =>
      rw [translateRun_succ_again _ _ _ _ _ _ _ _ _ _ _ hstep] at h
      have h' : (translateRun env code srcLang tgtLang pc n rc2 st2).result = .ok s := h
      exact ih rc2 st2 s h'

theorem translateCode_one_step (env : Env) (code srcLang tgtLang : String)
    (pc : Bool) (rc : Nat) (st : OrchState) (r : Except String String)
    (tr : List Ev)
    (h : translateStep env code srcLang tgtLang pc rc st = .done r tr) :
    translateCode env code srcLang tgtLang pc rc st = ⟨r, tr, 1⟩ := by
  unfold translateCode
  simp only [translateRun, h]

/-! Claim theorems. -/

/-- C7: the normalizer strips exactly one leading fence (the delimiter line up
to and including the next line break) and one trailing fence (a line break
followed by the delimiter at the very end of the string), then trims
surrounding whitespace; in particular normalizing the fenced python payload
yields exactly `print(1)`. -/
theorem C7_normalizer_strips_one_fence (info body : String)
    (h : '\n' ∉ info.data) :
    normalizeTranslated ("```" ++ info ++ "\n" ++ body ++ "\n```") =
      String.mk (jsTrim body.data) ∧
    normalizeTranslated "```python\nprint(1)\n```" = "print(1)" := by
  constructor
  · unfold normalizeTranslated
    have hd : ("```" ++ info ++ "\n" ++ body ++ "\n```").data =
        "```".data ++ (info.data ++ '\n' :: (body.data ++ "\n```".data)) := by
      simp only [data_append, List.append_assoc]
      rfl
    rw [hd, stripLeadingFence_fence info.data _ h, stripTrailingFence_fence]
  · decide

/-- C7 witness: instantiating the fence theorem at the payload
"```python\nprint(1)\n```" of the spec's example. -/
theorem C7_normalizer_witness :
    normalizeTranslated ("```" ++ "python" ++ "\n" ++ "print(1)" ++ "\n```") =
      String.mk (jsTrim "print(1)".data) ∧
    normalizeTranslated "```python\nprint(1)\n```" = "print(1)" :=
  C7_normalizer_strips_one_fence "python" "print(1)" (by decide)

/-- C10: the registry's admission relation is symmetric — a pair is admissible
iff its reverse is, and correspondingly `b` is a supported target for `a` iff
`a` is a supported target for `b`. -/
theorem C10_registry_symmetric (a b : String) :
    isLanguagePairSupported a b = isLanguagePairSupported b a ∧
    (b ∈ getSupportedTargetLanguages a ↔ a ∈ getSupportedTargetLanguages b) := by
  have key : ∀ x y : String,
      (x, y) ∈ SUPPORTED_LANGUAGE_PAIRS ↔ (y, x) ∈ SUPPORTED_LANGUAGE_PAIRS := by
    intro x y
    constructor
    · intro hm; exact pairs_reverse_mem (x, y) hm
    · intro hm; exact pairs_reverse_mem (y, x) hm
  constructor
  · cases h1 : isLanguagePairSupported a b <;>
      cases h2 : isLanguagePairSupported b a <;> try rfl
    · exfalso
      rw [isLanguagePairSupported_iff] at h2
      have hm := (key b a).mp h2
      rw [← isLanguagePairSupported_iff] at hm
      rw [h1] at hm
      exact Bool.false_ne_true hm
    · exfalso
      rw [isLanguagePairSupported_iff] at h1
      have hm := (key a b).mp h1
      rw [← isLanguagePairSupported_iff] at hm
      rw [h2] at hm
      exact Bool.false_ne_true hm
  · rw [mem_getSupportedTargetLanguages, mem_getSupportedTargetLanguages]
    exact key a b

/-- C8: a `checkApiHealth` call within the caching window of the previous
actual check returns the cached state without a network call, so two calls
inside one window perform exactly one network check and a later call after the
window performs a second; an actual check stamps `lastApiCheck` whether the
GET succeeds, answers a bad status, or fails at transport level. -/
theorem C8_health_cache (st : HealthGlobals) (t0 t1 t2 : Nat)
    (r0 r1 r2 : HttpOutcome)
    (h0 : API_HEALTH_CHECK_INTERVAL ≤ t0 - st.lastApiCheck)
    (h1 : t1 - t0 < API_HEALTH_CHECK_INTERVAL)
    (h2 : API_HEALTH_CHECK_INTERVAL ≤ t2 - t0) :
    (checkApiHealth st t0 r0).networkCall = true ∧
    (checkApiHealth st t0 r0).state.lastApiCheck = t0 ∧
    (checkApiHealth (checkApiHealth st t0 r0).state t1 r1).networkCall = false ∧
    (checkApiHealth (checkApiHealth st t0 r0).state t1 r1).state =
      (checkApiHealth st t0 r0).state ∧
    (checkApiHealth (checkApiHealth st t0 r0).state t1 r1).report.isHealthy =
      (checkApiHealth st t0 r0).state.isApiHealthy ∧
    (checkApiHealth
      (checkApiHealth (checkApiHealth st t0 r0).state t1 r1).state t2 r2).networkCall = true ∧
    (checkApiHealth
      (checkApiHealth (checkApiHealth st t0 r0).state t1 r1).state t2 r2).state.lastApiCheck = t2 := by
  have g0 : ¬ (t0 - st.lastApiCheck < API_HEALTH_CHECK_INTERVAL) := Nat.not_lt.mpr h0
  have g2 : ¬ (t2 - t0 < API_HEALTH_CHECK_INTERVAL) := Nat.not_lt.mpr h2
  cases r0 <;> cases r2 <;>
    simp [checkApiHealth, g0, g2, h1]

/-- C8 witness: an actual check that fails at transport level still stamps the
clock and is cached, a second call 1 ms later is answered from the cache, and
a third call at the window boundary checks again. -/
theorem C8_health_cache_witness :
    (checkApiHealth ⟨true, 0⟩ 300000 (.failed (some "ENOTFOUND") "fail")).networkCall = true ∧
    (checkApiHealth ⟨true, 0⟩ 300000 (.failed (some "ENOTFOUND") "fail")).state.lastApiCheck = 300000 ∧
    (checkApiHealth (checkApiHealth ⟨true, 0⟩ 300000 (.failed (some "ENOTFOUND") "fail")).state
      300001 (.resolved 200)).networkCall = false ∧
    (checkApiHealth (checkApiHealth ⟨true, 0⟩ 300000 (.failed (some "ENOTFOUND") "fail")).state
      300001 (.resolved 200)).state =
      (checkApiHealth ⟨true, 0⟩ 300000 (.failed (some "ENOTFOUND") "fail")).state ∧
    (checkApiHealth (checkApiHealth ⟨true, 0⟩ 300000 (.failed (some "ENOTFOUND") "fail")).state
      300001 (.resolved 200)).report.isHealthy =
      (checkApiHealth ⟨true, 0⟩ 300000 (.failed (some "ENOTFOUND") "fail")).state.isApiHealthy ∧
    (checkApiHealth (checkApiHealth (checkApiHealth ⟨true, 0⟩ 300000
        (.failed (some "ENOTFOUND") "fail")).state 300001 (.resolved 200)).state
      600000 (.resolved 503)).networkCall = true ∧
    (checkApiHealth (checkApiHealth (checkApiHealth ⟨true, 0⟩ 300000
        (.failed (some "ENOTFOUND") "fail")).state 300001 (.resolved 200)).state
      600000 (.resolved 503)).state.lastApiCheck = 600000 :=
  C8_health_cache ⟨true, 0⟩ 300000 300001 600000
    (.failed (some "ENOTFOUND") "fail") (.resolved 200) (.resolved 503)
    (by decide) (by decide) (by decide)

/-- C9: the connectivity probe is a total function of the transport outcome —
for every URL and every outcome it returns a result record, a transport
failure (timeout, DNS failure, connection reset, ...) becoming a negative
record with the human-readable message `Connection failed: <code or message>`
and a received status becoming a record that is positive iff the status is
below 400. -/
theorem C9_probe_never_throws (url : String) (net : HttpOutcome)
    (elapsedMs : Nat) :
    (∀ code msg, net = .failed code msg →
      testConnection url net elapsedMs =
        ⟨false, none, "Connection failed: " ++ jsOrOpt code msg⟩) ∧
    (∀ status, net = .resolved status →
      testConnection url net elapsedMs =
        ⟨decide (status < 400), some status,
         "Connection successful (" ++ toString status ++ " in " ++
           toString elapsedMs ++ "ms)"⟩) := by
  constructor
  · rintro code msg rfl
    rfl
  · rintro status rfl
    rfl

/-- C9 witness: a DNS failure against the default endpoint is captured as a
negative result with its code in the message. -/
theorem C9_probe_witness :
    testConnection "https://translate.u16p.com/api/v1/translate"
        (.failed (some "ENOTFOUND") "getaddrinfo ENOTFOUND") 3 =
      ⟨false, none, "Connection failed: ENOTFOUND"⟩ := by
  have h := (C9_probe_never_throws "https://translate.u16p.com/api/v1/translate"
      (.failed (some "ENOTFOUND") "getaddrinfo ENOTFOUND") 3).1
    (some "ENOTFOUND") "getaddrinfo ENOTFOUND" rfl
  rw [h]
  decide

theorem translateStep_gate_done (env : Env) (code srcLang tgtLang : String)
    (pc : Bool) (rc : Nat) (st : OrchState) (r : Except String String)
    (hgate : (checkApiHealth st.health (env.timeAtFrame st.frame)
        (env.healthGets st.getCount)).report.isHealthy = true ∨
      st.choices.head? = some UserChoice.tryAnyway)
    (hpost : ∀ st' : OrchState,
      translatePostPhase env code srcLang tgtLang pc rc st' = .done r []) :
    ∃ pre : List Ev, Ev.post ∉ pre ∧
      translateStep env code srcLang tgtLang pc rc st = .done r pre := by
  by_cases hh : (checkApiHealth st.health (env.timeAtFrame st.frame)
      (env.healthGets st.getCount)).report.isHealthy = true
  · refine ⟨if (checkApiHealth st.health (env.timeAtFrame st.frame)
        (env.healthGets st.getCount)).networkCall then [Ev.healthGet] else [],
      ?_, ?_⟩
    · cases hcall : (checkApiHealth st.health (env.timeAtFrame st.frame)
          (env.healthGets st.getCount)).networkCall <;> simp [hcall]
    · simp only [translateStep, hh, if_true, hpost]
      simp [StepResult.withTrace]
  · have hta : st.choices.head? = some UserChoice.tryAnyway :=
      hgate.resolve_left hh
    have hh' : (checkApiHealth st.health (env.timeAtFrame st.frame)
        (env.healthGets st.getCount)).report.isHealthy = false := by
      cases hb : (checkApiHealth st.health (env.timeAtFrame st.frame)
          (env.healthGets st.getCount)).report.isHealthy
      · rfl
      · exact absurd hb hh
    obtain ⟨hg, gc, pr, po, fr, ch⟩ := st
    have hta' : ch.head? = some UserChoice.tryAnyway := hta
    have hh'' : (checkApiHealth hg (env.timeAtFrame fr)
        (env.healthGets gc)).report.isHealthy = false := hh'
    cases ch with
    | nil => simp at hta'
    | cons c cs =>
      simp only [List.head?_cons, Option.some.injEq] at hta'
      subst hta'
      refine ⟨(if (checkApiHealth hg (env.timeAtFrame fr)
          (env.healthGets gc)).networkCall then [Ev.healthGet] else []) ++
            [Ev.probe], ?_, ?_⟩
      · cases hcall : (checkApiHealth hg (env.timeAtFrame fr)
            (env.healthGets gc)).networkCall <;> simp [hcall]
      · simp only [translateStep, hh'', Bool.false_eq_true, if_false]
        rw [hpost]
        simp [StepResult.withTrace]

/-- C1 (amended): for a language pair outside the registry table, when the
health gate is passed (the health check reports healthy, or the pending user
answer is Try Anyway) and the payload is within the size ceiling,
`translateCode` fails with the unsupported-pair error in a single frame and no
translate POST is ever issued; the admission check however runs only after the
health check, so a health GET may precede it. -/
theorem C1_unsupported_no_post (env : Env) (code srcLang tgtLang : String)
    (pc : Bool) (rc : Nat) (st : OrchState)
    (hsup : isLanguagePairSupported srcLang tgtLang = false)
    (hlen : code.length ≤ MAX_CODE_LENGTH)
    (hgate : (checkApiHealth st.health (env.timeAtFrame st.frame)
        (env.healthGets st.getCount)).report.isHealthy = true ∨
      st.choices.head? = some UserChoice.tryAnyway) :
    (translateCode env code srcLang tgtLang pc rc st).result =
      .error ("Translation failed: " ++ ("Translation from " ++ srcLang ++
        " to " ++ tgtLang ++ " is not supported.")) ∧
    Ev.post ∉ (translateCode env code srcLang tgtLang pc rc st).trace ∧
    (translateCode env code srcLang tgtLang pc rc st).frames = 1 := by
  have hpost : ∀ st' : OrchState,
      translatePostPhase env code srcLang tgtLang pc rc st' =
        .done (.error ("Translation failed: " ++ ("Translation from " ++
          srcLang ++ " to " ++ tgtLang ++ " is not supported."))) [] := by
    intro st'
    simp only [translatePostPhase, if_neg (Nat.not_lt.mpr hlen), hsup,
      Bool.false_eq_true, if_false]
  obtain ⟨pre, hpre, hstep⟩ :=
    translateStep_gate_done env code srcLang tgtLang pc rc st _ hgate hpost
  rw [translateCode_one_step _ _ _ _ _ _ _ _ _ hstep]
  exact ⟨rfl, hpre, rfl⟩

/-- C1 witness: degraded service (health GET answers 500), the user answers
Try Anyway, unsupported pair python→cobol, one-character payload — the gate is
passed via the dialog route and the run still fails with the unsupported-pair
error after the health GET and the probe, with no POST. -/
theorem C1_unsupported_no_post_witness :
    (translateCode envUnhealthy "x" "python" "cobol" true 1
        (initState [.tryAnyway])).result =
      .error ("Translation failed: " ++ ("Translation from " ++ "python" ++
        " to " ++ "cobol" ++ " is not supported.")) ∧
    Ev.post ∉ (translateCode envUnhealthy "x" "python" "cobol" true 1
        (initState [.tryAnyway])).trace ∧
    (translateCode envUnhealthy "x" "python" "cobol" true 1
        (initState [.tryAnyway])).frames = 1 :=
  C1_unsupported_no_post envUnhealthy "x" "python" "cobol" true 1
    (initState [.tryAnyway]) (by decide) (by decide) (by decide)

/-- C1 counterexample: with a stale health cache, the run for the unsupported
pair python→cobol performs a health-check GET before failing with the
unsupported-pair error, refuting that no health-check GET is issued for an
unsupported pair. -/
theorem C1_counterexample :
    translateCode envHealthy "x" "python" "cobol" true 1 (initState []) =
      ⟨.error "Translation failed: Translation from python to cobol is not supported.",
       [Ev.healthGet], 1⟩ ∧
    Ev.healthGet ∈
      (translateCode envHealthy "x" "python" "cobol" true 1 (initState [])).trace := by
  refine ⟨by decide, by decide⟩

/-- C2 (amended): for a payload over the size ceiling, when the health gate is
passed (the health check reports healthy, or the pending user answer is Try
Anyway) `translateCode` fails with the too-large error in a single frame and
no translate POST is ever issued (so the failure is never retried); the size
check however runs only after the health check, so a health GET may precede
it. -/
theorem C2_oversized_no_post (env : Env) (code srcLang tgtLang : String)
    (pc : Bool) (rc : Nat) (st : OrchState)
    (hlen : MAX_CODE_LENGTH < code.length)
    (hgate : (checkApiHealth st.health (env.timeAtFrame st.frame)
        (env.healthGets st.getCount)).report.isHealthy = true ∨
      st.choices.head? = some UserChoice.tryAnyway) :
    (translateCode env code srcLang tgtLang pc rc st).result =
      .error ("Translation failed: " ++ "Code too large for translation") ∧
    Ev.post ∉ (translateCode env code srcLang tgtLang pc rc st).trace ∧
    (translateCode env code srcLang tgtLang pc rc st).frames = 1 := by
  have hpost : ∀ st' : OrchState,
      translatePostPhase env code srcLang tgtLang pc rc st' =
        .done (.error ("Translation failed: " ++
          "Code too large for translation")) [] := by
    intro st'
    simp only [translatePostPhase, if_pos hlen]
  obtain ⟨pre, hpre, hstep⟩ :=
    translateStep_gate_done env code srcLang tgtLang pc rc st _ hgate hpost
  rw [translateCode_one_step _ _ _ _ _ _ _ _ _ hstep]
  exact ⟨rfl, hpre, rfl⟩

/-- C2 witness: a 10001-character payload against the healthy environment with
a stale cache, passing the gate via the healthy route. -/
theorem C2_oversized_no_post_witness :
    (translateCode envHealthy bigCode "python" "javascript" true 1 (initState [])).result =
      .error ("Translation failed: " ++ "Code too large for translation") ∧
    Ev.post ∉ (translateCode envHealthy bigCode "python" "javascript" true 1 (initState [])).trace ∧
    (translateCode envHealthy bigCode "python" "javascript" true 1 (initState [])).frames = 1 :=
  C2_oversized_no_post envHealthy bigCode "python" "javascript" true 1 (initState [])
    (by rw [bigCode_length]; decide) (Or.inl (by decide))

/-- C2 counterexample: a 10001-character payload with a stale health cache
fails with the too-large error only after a health-check GET has been issued,
refuting that no network call is made for an oversized payload. -/
theorem C2_counterexample :
    translateCode envHealthy bigCode "python" "javascript" true 1 (initState []) =
      ⟨.error "Translation failed: Code too large for translation",
       [Ev.healthGet], 1⟩ ∧
    Ev.healthGet ∈
      (translateCode envHealthy bigCode "python" "javascript" true 1 (initState [])).trace := by
  have hlen : MAX_CODE_LENGTH < bigCode.length := by
    rw [bigCode_length]; decide
  have hc : checkApiHealth (initState []).health
      (envHealthy.timeAtFrame (initState []).frame)
      (envHealthy.healthGets (initState []).getCount) =
      ⟨⟨true, some "API is healthy"⟩, ⟨true, 1000000⟩, true⟩ := by decide
  have hstep : translateStep envHealthy bigCode "python" "javascript" true 1
      (initState []) =
      .done (.error "Translation failed: Code too large for translation")
        [Ev.healthGet] := by
    simp only [translateStep, hc]
    simp only [translatePostPhase, if_pos hlen]
    simp [StepResult.withTrace]
  have hrun := translateCode_one_step _ _ _ _ _ _ _ _ _ hstep
  rw [hrun]
  exact ⟨rfl, by decide⟩

/-- C3 (amended): the number of `translateCode` invocations in a run is
bounded by the retry budget plus the number of pending user dialog answers
plus one — every self-call either decrements the budget or consumes one user
answer, and with the budget at zero every retryable network outcome
terminates with a Failure; the budget alone does not bound the recursion,
because the Check Again answer recurses without decrementing it. -/
theorem C3_frames_bounded (env : Env) (code srcLang tgtLang : String)
    (pc : Bool) (rc : Nat) (st : OrchState) :
    (translateCode env code srcLang tgtLang pc rc st).frames ≤
      rc + st.choices.length + 1 := by
  have h := translateRun_frames env code srcLang tgtLang pc
    (orchMeasure rc st + 1) rc st (Nat.lt_succ_self _)
  simpa [translateCode, orchMeasure] using h

/-- C3 counterexample: against a degraded service, three Check Again answers
followed by Cancel drive four orchestrator invocations on a budget of one,
refuting that the orchestrator cannot recurse without decrementing the budget
(which would bound the invocations by budget + 1 = 2). -/
theorem C3_counterexample :
    (translateCode envUnhealthy "x" "python" "javascript" true 1
      (initState [.checkAgain, .checkAgain, .checkAgain, .cancel])).frames = 4 ∧
    ¬ ((translateCode envUnhealthy "x" "python" "javascript" true 1
      (initState [.checkAgain, .checkAgain, .checkAgain, .cancel])).frames ≤ 1 + 1) := by
  refine ⟨by decide, by decide⟩

/-- C4: a transport that always answers HTTP 429 resolves under
`validateStatus: (status) => status < 500`, is routed through the non-2xx
response branch of the inner `try`, and makes `translateCode` fail immediately
in a single frame with no suspension and no retry — the catch-side 429
handlers that would wait for the retry-after delay are unreachable. -/
theorem C4_rate_limited_not_retried :
    translateCode envRateLimited "x" "python" "javascript" true 1 (initState []) =
      ⟨.error "Translation failed: Translation failed: Translation failed: Request failed with status 429",
       [Ev.healthGet, Ev.post], 1⟩ := by
  decide

/-- C5 (amended): a timeout/abort (`ECONNABORTED`) or an attached 504 response
makes the inner catch retry after a fixed 1000 ms whenever budget remains, and
fail with the service-unavailable error once the budget is exhausted; the
exponential-backoff-with-jitter schedule appears only in the unreachable outer
catch. -/
theorem C5_timeout_fixed_delay (e : AxiosErrData)
    (h : e.code = some "ECONNABORTED" ∨ e.response.map ErrResp.status = some 504) :
    (∀ rc, 0 < rc → innerCatch (.axios e) rc = .retryAfterMs 1000) ∧
    innerCatch (.axios e) 0 =
      .raise "Translation service is currently unavailable. The request timed out." := by
  have hb : (e.code == some "ECONNABORTED" ||
      e.response.map ErrResp.status == some 504) = true := by
    cases h with
    | inl h => simp [h]
    | inr h => simp [h]
  constructor
  · intro rc hrc
    simp [innerCatch, hb, hrc]
  · simp [innerCatch, hb]

/-- C5 witness: a concrete `ECONNABORTED` timeout error with budget 1 retries
after exactly 1000 ms. -/
theorem C5_timeout_fixed_delay_witness :
    innerCatch (.axios ⟨some "ECONNABORTED", none, true, "timeout of 10000ms exceeded"⟩) 1 =
      .retryAfterMs 1000 :=
  (C5_timeout_fixed_delay
    ⟨some "ECONNABORTED", none, true, "timeout of 10000ms exceeded"⟩
    (Or.inl rfl)).1 1 (by decide)

/-- C5 counterexample: with a transport that always times out, budget 1 and a
jitter draw of 500, the run's only suspension is exactly 1000 ms; the
suspension of `min(baseDelay * 2^attemptNumber, maxDelay) + jitter = 1500` ms
that the claimed schedule predicts never occurs in the trace. -/
theorem C5_counterexample :
    (translateCode envTimeout "x" "python" "javascript" true 1 (initState [])).trace =
      [Ev.healthGet, Ev.post, Ev.wait 1000, Ev.post] ∧
    (translateCode envTimeout "x" "python" "javascript" true 1 (initState [])).result =
      .error "Translation failed: Translation service is currently unavailable. The request timed out." ∧
    outerBackoffDelay 1 (envTimeout.rand 0) = 1500 ∧
    Ev.wait (outerBackoffDelay 1 (envTimeout.rand 0)) ∉
      (translateCode envTimeout "x" "python" "javascript" true 1 (initState [])).trace := by
  refine ⟨by decide, by decide, by decide, by decide⟩

/-- C6 (amended): a 2xx response whose nonempty `translated_code` normalizes
to the empty string is classified as the empty-translation failure, and no
orchestration run ever returns a Success carrying the empty string; a 2xx
response whose `translated_code` is itself the empty string is however
classified as the invalid-response-format failure, because the empty string is
falsy in JS. -/
theorem C6_no_empty_success :
    (∀ (r : Resp) (raw : String), 200 ≤ r.status → r.status < 300 →
      r.translated_code = some raw → raw ≠ "" → normalizeTranslated raw = "" →
      handleTranslateResponse r =
        .error (.plain "Received empty translation from the server")) ∧
    (∀ (env : Env) (code srcLang tgtLang : String) (pc : Bool) (rc : Nat)
      (st : OrchState) (s : String),
      (translateCode env code srcLang tgtLang pc rc st).result = .ok s →
      s ≠ "") := by
  constructor
  · intro r raw h1 h2 h3 h4 h5
    simp only [handleTranslateResponse, if_pos (And.intro h1 h2), h3]
    rw [if_neg h4]
    simp [h5]
  · intro env code srcLang tgtLang pc rc st s h
    exact translateRun_ok env code srcLang tgtLang pc _ rc st s h

/-- C6 witness: a whitespace-only payload is classified as the
empty-translation failure, and a run returning Success `print(1)` indeed
carries nonempty text. -/
theorem C6_no_empty_success_witness :
    handleTranslateResponse ⟨200, some "   ", none, ""⟩ =
      .error (.plain "Received empty translation from the server") ∧
    "print(1)" ≠ "" := by
  constructor
  · exact C6_no_empty_success.1 ⟨200, some "   ", none, ""⟩ "   "
      (by decide) (by decide) rfl (by decide) (by decide)
  · exact C6_no_empty_success.2 envFenced "x" "python" "javascript" true 1
      (initState []) "print(1)" (by decide)

/-- C6 counterexample: the empty payload normalizes to the empty string, yet
the run classifies it as the invalid-response-format failure, not as the
empty-translation (`EmptyPayload`) failure the claim names. -/
theorem C6_counterexample :
    normalizeTranslated "" = "" ∧
    (translateCode envEmptyField "x" "python" "javascript" true 1 (initState [])).result =
      .error "Translation failed: Translation failed: Invalid response format from translation service: Missing translated_code" ∧
    (translateCode envEmptyField "x" "python" "javascript" true 1 (initState [])).result ≠
      .error "Translation failed: Translation failed: Received empty translation from the server" := by
  refine ⟨rfl, by decide, by decide⟩

end Polygot
